import Mathlib

/-!
# Verification of the gotooth HCI engine

Shallow embedding of the HCI (Host Controller Interface) engine of the
gotooth repository: the packet framer's read-length computation, the event
decoder `handleEventData`, the ACL demultiplexer `handleACLData`, and the
blocking command dispatcher `sendCommandWithParams` with its 3-second
wait loop.  Byte buffers are modelled as `List Nat` (each entry one byte),
16-bit machine arithmetic as `Nat` with explicit `% 65536`, and the
collaborating ATT/L2CAP/transport layers as recorded effects.
-/

namespace Gotooth

/-! ## Wire constants (from the source's const blocks) -/

def ogfCommandPos : Nat := 10
def ogfLECtrl : Nat := 0x08
def ocfLESetAdvertiseEnable : Nat := 0x000a
def ocfLEParamRequestReply : Nat := 0x0020

def leMetaEventConnComplete : Nat := 0x01
def leMetaEventAdvertisingReport : Nat := 0x02
def leMetaEventConnectionUpdateComplete : Nat := 0x03
def leMetaEventLongTermKeyRequest : Nat := 0x05
def leMetaEventRemoteConnParamReq : Nat := 0x06
def leMetaEventDataLengthChange : Nat := 0x07
def leMetaEventReadLocalP256Complete : Nat := 0x08
def leMetaEventGenerateDHKeyComplete : Nat := 0x09
def leMetaEventEnhancedConnectionComplete : Nat := 0x0A

def hciCommandPkt : Nat := 0x01
def hciACLDataPkt : Nat := 0x02
def hciSynchronousDataPkt : Nat := 0x03
def hciEventPkt : Nat := 0x04

def evtDisconnComplete : Nat := 0x05
def evtEncryptionChange : Nat := 0x08
def evtCmdComplete : Nat := 0x0e
def evtCmdStatus : Nat := 0x0f
def evtHardwareError : Nat := 0x10
def evtNumCompPkts : Nat := 0x13
def evtLEMetaEvent : Nat := 0x3e

def attCID : Nat := 0x0004
def signalingCID : Nat := 0x0005

/-- The error values of the engine (`ErrHCI…` plus the ad hoc
`errors.New("fragmented packet")` of `handleACLData`). -/
inductive HCIErr where
  | Timeout
  | UnknownEvent
  | Unknown
  | InvalidPacket
  | Hardware
  | Fragmented
deriving DecidableEq, Repr

deriving instance DecidableEq for Except

/-! ## Byte-level helpers -/

/-- `binary.LittleEndian.Uint16(buf[i:])`: little-endian 16-bit read. -/
def le16 (buf : List Nat) (i : Nat) : Nat :=
  buf.getD i 0 + 256 * buf.getD (i + 1) 0

/-- `binary.LittleEndian.PutUint16`: little-endian 16-bit encoding. -/
def put16 (n : Nat) : List Nat := [n % 256, n / 256 % 256]

/-- Reinterpret a byte as Go's `int8` (two's complement). -/
def int8OfByte (b : Nat) : Int :=
  if b < 128 then (b : Int) else (b : Int) - 256

/-- Semantics of Go's `copy(dst[0:], src)` into a fixed-size field: the
first `src.length` entries are overwritten, the tail kept. -/
def overwritePrefix (old src : List Nat) : List Nat :=
  src ++ old.drop src.length

/-! ## Data model: the single-slot records of the `hci` struct -/

/-- `leAdvertisingReport`: single-slot advertising-report record. -/
structure LeAdvertisingReport where
  reported : Bool
  numReports : Nat
  typ : Nat
  peerBdaddrType : Nat
  peerBdaddr : List Nat
  eirLength : Nat
  eirData : List Nat
  rssi : Int
deriving DecidableEq, Repr

/-- `leConnectData`: single-slot connection record. -/
structure LeConnectData where
  connected : Bool
  disconnected : Bool
  status : Nat
  handle : Nat
  role : Nat
  peerBdaddrType : Nat
  peerBdaddr : List Nat
  interval : Nat
  timeout : Nat
deriving DecidableEq, Repr

/-- The decoder-visible state of the `hci` struct: completion slot,
advertising slot, connection slot, pending-packet credit. -/
structure HCIState where
  cmdCompleteOpcode : Nat
  cmdCompleteStatus : Nat
  cmdResponse : List Nat
  scanning : Bool
  advData : LeAdvertisingReport
  connectData : LeConnectData
  pendingPkt : Nat
deriving DecidableEq, Repr

/-- The zero value of `leAdvertisingReport`, also the result of
`clearAdvData`. -/
def clearedAdvData : LeAdvertisingReport :=
  { reported := false, numReports := 0, typ := 0, peerBdaddrType := 0,
    peerBdaddr := List.replicate 6 0, eirLength := 0,
    eirData := List.replicate 31 0, rssi := 0 }

/-- The zero value of `leConnectData`. -/
def initConnectData : LeConnectData :=
  { connected := false, disconnected := false, status := 0, handle := 0,
    role := 0, peerBdaddrType := 0, peerBdaddr := List.replicate 6 0,
    interval := 0, timeout := 0 }

/-- The state of a freshly created `hci` value (`newHCI`): Go zero values. -/
def initState : HCIState :=
  { cmdCompleteOpcode := 0, cmdCompleteStatus := 0, cmdResponse := [],
    scanning := false, advData := clearedAdvData,
    connectData := initConnectData, pendingPkt := 0 }

/-- Calls made to the external collaborators (ATT, L2CAP, transport). -/
inductive Effect where
  | attRemoveConnection (handle : Nat)
  | l2capRemoveConnection (handle : Nat)
  | attAddConnection (handle : Nat)
  | l2capAddConnection (handle role interval timeout : Nat)
  | attHandleData (handle : Nat) (data : List Nat)
  | l2capHandleData (handle : Nat) (data : List Nat)
  | transportWrite (frame : List Nat)
deriving DecidableEq, Repr

/-! ## ACL demultiplexer (`hci.handleACLData`) -/

/-- `hci.handleACLData`.  `buf` is the frame without the leading packet-type
tag.  Header fields are 16-bit little-endian; `dlen - 4` is `uint16`
subtraction, modelled as `(dlen + 65532) % 65536`.  Routing by `cid`:
ATT (`0x0004`), signaling/L2CAP (`0x0005`), otherwise silently dropped;
the handle is masked to its low 12 bits. -/
def handleACLData (buf : List Nat) : List Effect × Except HCIErr Unit :=
  let handle := le16 buf 0
  let dlen := le16 buf 2
  let len := le16 buf 4
  let cid := le16 buf 6
  if (dlen + 65532) % 65536 ≠ len then
    ([], Except.error HCIErr.Fragmented)
  else if cid = attCID then
    ([Effect.attHandleData (handle % 4096) ((buf.drop 8).take len)], Except.ok ())
  else if cid = signalingCID then
    ([Effect.l2capHandleData (handle % 4096) ((buf.drop 8).take len)], Except.ok ())
  else
    ([], Except.ok ())

/-! ## Event decoder (`hci.handleEventData`), one helper per switch case -/

/-- `hci.sendWithoutResponse`: write the command frame, reset the
completion slot to the sentinel (`0xffff` / `0xff`), return at once. -/
def sendWithoutResponseFx (s : HCIState) (opcode : Nat) (params : List Nat) :
    HCIState × List Effect :=
  ({ s with cmdCompleteOpcode := 0xffff, cmdCompleteStatus := 0xff },
   [Effect.transportWrite ([hciCommandPkt] ++ put16 opcode ++ [params.length % 256] ++ params)])

/-- `hci.leSetAdvertiseEnable`: one parameter byte, fire-and-forget. -/
def leSetAdvertiseEnableFx (s : HCIState) (enabled : Bool) : HCIState × List Effect :=
  sendWithoutResponseFx s (ogfLECtrl <<< ogfCommandPos ||| ocfLESetAdvertiseEnable)
    [if enabled then 1 else 0]

/-- `evtDisconnComplete` case: drop the connection at the collaborators,
mark disconnected, re-enable advertising (without response). -/
def handleDisconnComplete (s : HCIState) (buf : List Nat) :
    HCIState × List Effect × Except HCIErr Unit :=
  let handle := le16 buf 3
  let s1 := { s with connectData :=
                { s.connectData with disconnected := true, handle := handle } }
  ((leSetAdvertiseEnableFx s1 true).1,
   [Effect.attRemoveConnection handle, Effect.l2capRemoveConnection handle]
     ++ (leSetAdvertiseEnableFx s1 true).2,
   Except.ok ())

/-- `evtCmdComplete` case: record opcode, status and response slice
`buf[1 : plen+2]` (empty when `plen = 0`). -/
def handleCmdComplete (s : HCIState) (buf : List Nat) :
    HCIState × List Effect × Except HCIErr Unit :=
  let plen := buf.getD 1 0
  ({ s with cmdCompleteOpcode := le16 buf 3,
            cmdCompleteStatus := buf.getD 5 0,
            cmdResponse := if 0 < plen then (buf.drop 1).take (plen + 1) else [] },
   [], Except.ok ())

/-- `evtCmdStatus` case: record status and opcode, empty response. -/
def handleCmdStatus (s : HCIState) (buf : List Nat) :
    HCIState × List Effect × Except HCIErr Unit :=
  ({ s with cmdCompleteStatus := buf.getD 2 0,
            cmdCompleteOpcode := le16 buf 4,
            cmdResponse := [] },
   [], Except.ok ())

/-- The `uint16` accumulation `pkts += LE16(buf[5+i*4:])` over the first
`c` handle entries, wrapping at `65536` on each addition. -/
def sumCompleted (buf : List Nat) : Nat → Nat
  | 0 => 0
  | Nat.succ i => (sumCompleted buf i + le16 buf (5 + 4 * i)) % 65536

/-- `evtNumCompPkts` case: subtract the summed completed counts from the
pending-packet credit when `0 < pkts ∧ pkts < pendingPkt`, else zero it. -/
def handleNumCompPkts (s : HCIState) (buf : List Nat) :
    HCIState × List Effect × Except HCIErr Unit :=
  let pkts := sumCompleted buf (buf.getD 2 0)
  ({ s with pendingPkt :=
      if 0 < pkts ∧ pkts < s.pendingPkt then s.pendingPkt - pkts else 0 },
   [], Except.ok ())

/-- LE meta sub-events `ConnComplete` (`0x01`) / `EnhancedConnectionComplete`
(`0x0A`): fill the connection slot (interval/timeout at offsets 14/18 resp.
26/30), register the connection, then disable advertising. -/
def handleConnComplete (s : HCIState) (buf : List Nat) :
    HCIState × List Effect × Except HCIErr Unit :=
  let sub := buf.getD 2 0
  let cd0 := s.connectData
  let cd :=
    { cd0 with connected := true, status := buf.getD 3 0, handle := le16 buf 4,
               role := buf.getD 6 0, peerBdaddrType := buf.getD 7 0,
               peerBdaddr := overwritePrefix cd0.peerBdaddr ((buf.drop 8).take 6),
               interval := if sub = leMetaEventConnComplete then le16 buf 14 else le16 buf 26,
               timeout := if sub = leMetaEventConnComplete then le16 buf 18 else le16 buf 30 }
  let s1 := { s with connectData := cd }
  ((leSetAdvertiseEnableFx s1 false).1,
   [Effect.attAddConnection cd.handle,
    Effect.l2capAddConnection cd.handle cd.role cd.interval cd.timeout]
     ++ (leSetAdvertiseEnableFx s1 false).2,
   Except.ok ())

/-- LE meta sub-event `AdvertisingReport` (`0x02`): fill the slot, check
`int(13+eirLength+1) > len(buf) || eirLength > 31` (the length expression
is `uint8` arithmetic, hence `% 256`), then copy the EIR bytes and, when
exactly one report is present, the trailing RSSI byte. -/
def handleAdvReport (s : HCIState) (buf : List Nat) :
    HCIState × List Effect × Except HCIErr Unit :=
  let a0 := s.advData
  let eir := buf.getD 12 0
  let a1 := { a0 with reported := true, numReports := buf.getD 3 0,
                      typ := buf.getD 4 0, peerBdaddrType := buf.getD 5 0,
                      peerBdaddr := overwritePrefix a0.peerBdaddr ((buf.drop 6).take 6),
                      eirLength := eir, rssi := 0 }
  if buf.length < (13 + eir + 1) % 256 ∨ 31 < eir then
    ({ s with advData := a1 }, [], Except.error HCIErr.InvalidPacket)
  else
    let a2 := { a1 with eirData := overwritePrefix a1.eirData ((buf.drop 13).take eir) }
    let a3 := if a2.numReports = 1
      then { a2 with rssi := int8OfByte (buf.getD ((13 + eir) % 256) 0) }
      else a2
    ({ s with advData := a3 }, [], Except.ok ())

/-- LE meta sub-event `RemoteConnParamReq` (`0x06`): echo the request back
with accept bounds `0x000F`/`0x0FFF`, fire-and-forget. -/
def handleRemoteConnParamReq (s : HCIState) (buf : List Nat) :
    HCIState × List Effect × Except HCIErr Unit :=
  let b := put16 (le16 buf 3) ++ put16 (le16 buf 5) ++ put16 (le16 buf 7)
        ++ put16 (le16 buf 9) ++ put16 (le16 buf 11) ++ put16 0x000F ++ put16 0x0FFF
  ((sendWithoutResponseFx s (ogfLECtrl <<< 10 ||| ocfLEParamRequestReply) b).1,
   (sendWithoutResponseFx s (ogfLECtrl <<< 10 ||| ocfLEParamRequestReply) b).2,
   Except.ok ())

/-- `evtLEMetaEvent` case: dispatch by the sub-event tag `buf[2]`; the
default branch clears the advertising slot and fails with UnknownEvent. -/
def handleLEMetaEvent (s : HCIState) (buf : List Nat) :
    HCIState × List Effect × Except HCIErr Unit :=
  let sub := buf.getD 2 0
  if sub = leMetaEventConnComplete ∨ sub = leMetaEventEnhancedConnectionComplete then
    handleConnComplete s buf
  else if sub = leMetaEventAdvertisingReport then
    handleAdvReport s buf
  else if sub = leMetaEventLongTermKeyRequest then
    (s, [], Except.ok ())
  else if sub = leMetaEventRemoteConnParamReq then
    handleRemoteConnParamReq s buf
  else if sub = leMetaEventConnectionUpdateComplete then
    (s, [], Except.ok ())
  else if sub = leMetaEventReadLocalP256Complete then
    (s, [], Except.ok ())
  else if sub = leMetaEventGenerateDHKeyComplete then
    (s, [], Except.ok ())
  else if sub = leMetaEventDataLengthChange then
    (s, [], Except.ok ())
  else
    ({ s with advData := clearedAdvData }, [], Except.error HCIErr.UnknownEvent)

/-- `hci.handleEventData`: top-level event dispatch on `buf[0]`.  Event
codes without a case (the Go `switch` has no default) fall through to
success. -/
def handleEventData (s : HCIState) (buf : List Nat) :
    HCIState × List Effect × Except HCIErr Unit :=
  let evt := buf.getD 0 0
  if evt = evtDisconnComplete then handleDisconnComplete s buf
  else if evt = evtEncryptionChange then (s, [], Except.ok ())
  else if evt = evtCmdComplete then handleCmdComplete s buf
  else if evt = evtCmdStatus then handleCmdStatus s buf
  else if evt = evtNumCompPkts then handleNumCompPkts s buf
  else if evt = evtLEMetaEvent then handleLEMetaEvent s buf
  else if evt = evtHardwareError then (s, [], Except.error HCIErr.UnknownEvent)
  else (s, [], Except.ok ())

/-! ## Framer read-length computation (`hci.poll`) -/

/-- The poll loop's requested read length: `available` rounded up to the
next multiple of 4 (`aligned := available + (4-(available%4))%4`). -/
def alignedReadLen (available : Nat) : Nat :=
  available + (4 - available % 4) % 4

/-- Number of transport reads performed in one poll iteration: one exactly
when the transport reports buffered bytes. -/
def pollReadCount (available : Nat) : Nat :=
  if 0 < available then 1 else 0

/-- Capacity of the engine's packet buffer (`make([]byte, 256)`). -/
def bufCapacity : Nat := 256

/-- Upper end of the read slice `h.buf[h.end : h.end+aligned]`. -/
def readSliceEnd (e available : Nat) : Nat := e + alignedReadLen available

/-! ## Frame classification (`hci.processPacket`) and the poll step -/

/-- Dispatch of one complete frame by its leading tag byte, as in
`hci.processPacket`: ACL data to the demultiplexer, events to the decoder,
synchronous data skipped, anything else `ErrHCIUnknown`. -/
def processFrame (s : HCIState) (frame : List Nat) :
    HCIState × List Effect × Except HCIErr Unit :=
  let tag := frame.getD 0 0
  if tag = hciACLDataPkt then
    (s, (handleACLData (frame.drop 1)).1, (handleACLData (frame.drop 1)).2)
  else if tag = hciEventPkt then
    handleEventData s (frame.drop 1)
  else if tag = hciSynchronousDataPkt then
    (s, [], Except.ok ())
  else
    (s, [], Except.error HCIErr.Unknown)

/-- The errors `hci.poll` swallows locally (buffer discard + 5 ms backoff)
instead of returning: `ErrHCIInvalidPacket`, `ErrHCIUnknown`,
`ErrHCIUnknownEvent`. -/
def swallowedErr : HCIErr → Bool
  | HCIErr.InvalidPacket => true
  | HCIErr.Unknown => true
  | HCIErr.UnknownEvent => true
  | _ => false

/-- One successful `hci.poll` invocation delivering one complete frame:
the frame is processed, and the three resynchronization errors are
swallowed while any other error is returned to the caller. -/
def pollOnce (s : HCIState) (frame : List Nat) : HCIState × Except HCIErr Unit :=
  let r := processFrame s frame
  (r.1,
   match r.2.2 with
   | Except.ok _ => Except.ok ()
   | Except.error e => if swallowedErr e then Except.ok () else Except.error e)

/-! ## Blocking command dispatch (`hci.sendCommandWithParams`) -/

/-- Result of the wait loop: success, a propagated error (timeout
included), or still pending when the supplied poll trace runs out. -/
inductive WaitOutcome where
  | ok (s : HCIState)
  | err (e : HCIErr) (s : HCIState)
  | pending (s : HCIState)
deriving DecidableEq, Repr

/-- The carried engine state of a wait-loop outcome. -/
def WaitOutcome.stateOf : WaitOutcome → HCIState
  | WaitOutcome.ok s => s
  | WaitOutcome.err _ s => s
  | WaitOutcome.pending s => s

/-- True exactly for a successful outcome. -/
def WaitOutcome.succeeded : WaitOutcome → Bool
  | WaitOutcome.ok _ => true
  | _ => false

/-- True exactly for the `ErrHCITimeout` outcome. -/
def WaitOutcome.isTimeout : WaitOutcome → Bool
  | WaitOutcome.err HCIErr.Timeout _ => true
  | _ => false

/-- The wait loop of `hci.sendCommandWithParams`, driven by a trace of
poll deliveries: each entry is the complete frame the poll consumes and
the wall-clock nanoseconds elapsed since `start` when that poll returns.
Mirrors the source order: loop guard `cmdCompleteOpcode != opcode`, then
`poll` (propagating its error), then the check
`(now-start)/int64(time.Second) > 3` returning `ErrHCITimeout`.
Also counts the number of poll invocations performed. -/
def waitLoop (opcode : Nat) (s : HCIState) :
    List (List Nat × Nat) → WaitOutcome × Nat
  | [] =>
    (if s.cmdCompleteOpcode = opcode then WaitOutcome.ok s else WaitOutcome.pending s, 0)
  | (frame, t) :: rest =>
    if s.cmdCompleteOpcode = opcode then (WaitOutcome.ok s, 0)
    else
      match (pollOnce s frame).2 with
      | Except.error e => (WaitOutcome.err e (pollOnce s frame).1, 1)
      | Except.ok _ =>
        if 3 < t / 1000000000 then
          (WaitOutcome.err HCIErr.Timeout (pollOnce s frame).1, 1)
        else
          ((waitLoop opcode (pollOnce s frame).1 rest).1,
           (waitLoop opcode (pollOnce s frame).1 rest).2 + 1)

/-- The outbound frame `[Command][opcode:2LE][len:1][params]` written by
the dispatcher. -/
def commandFrame (opcode : Nat) (params : List Nat) : List Nat :=
  [hciCommandPkt] ++ put16 opcode ++ [params.length % 256] ++ params

/-- `hci.sendCommandWithParams` after the frame write: reset the
completion slot to the sentinel (`0xffff`/`0xff`) and enter the wait
loop against the given poll trace. -/
def sendCommandWithParams (opcode : Nat) (_params : List Nat) (s : HCIState)
    (trace : List (List Nat × Nat)) : WaitOutcome × Nat :=
  waitLoop opcode
    { s with cmdCompleteOpcode := 0xffff, cmdCompleteStatus := 0xff } trace

/-- A frame is a CommandComplete or CommandStatus event carrying the given
opcode — the only frames whose decoding records that opcode in the
completion slot. -/
def isMatchingCompletion (opcode : Nat) (frame : List Nat) : Prop :=
  frame.getD 0 0 = hciEventPkt ∧
  ((frame.getD 1 0 = evtCmdComplete ∧ le16 (frame.drop 1) 3 = opcode) ∨
   (frame.getD 1 0 = evtCmdStatus ∧ le16 (frame.drop 1) 4 = opcode))

instance (opcode : Nat) (frame : List Nat) :
    Decidable (isMatchingCompletion opcode frame) := by
  unfold isMatchingCompletion
  infer_instance

/-- A well-formed CommandComplete event frame for the given opcode and
status, with no return parameters (`numPkts = 1`). -/
def cmdCompleteFrame (opcode status : Nat) : List Nat :=
  [hciEventPkt, evtCmdComplete, 4, 1, opcode % 256, opcode / 256 % 256, status]

/-- The decoded state of the engine named by the specification: the
advertising-report slot, connection slot, completion slot and
pending-packet credit. -/
structure DecodedState where
  advData : LeAdvertisingReport
  connectData : LeConnectData
  cmdCompleteOpcode : Nat
  cmdCompleteStatus : Nat
  cmdResponse : List Nat
  pendingPkt : Nat
deriving DecidableEq, Repr

/-- Projection of an `HCIState` onto its decoder-visible slots. -/
def decodedState (s : HCIState) : DecodedState :=
  { advData := s.advData, connectData := s.connectData,
    cmdCompleteOpcode := s.cmdCompleteOpcode,
    cmdCompleteStatus := s.cmdCompleteStatus,
    cmdResponse := s.cmdResponse, pendingPkt := s.pendingPkt }

/-! ## Helper lemmas -/

theorem getD_lt_256 (buf : List Nat) (i : Nat) (h : ∀ b ∈ buf, b < 256) :
    buf.getD i 0 < 256 := by
  induction buf generalizing i with
  | nil => simp [List.getD]
  | cons a l ih =>
    cases i with
    | zero => exact h a (by simp)
    | succ n => exact ih n (fun b hb => h b (by simp [hb]))

theorem le16_lt (buf : List Nat) (i : Nat) (h : ∀ b ∈ buf, b < 256) :
    le16 buf i < 65536 := by
  have h1 := getD_lt_256 buf i h
  have h2 := getD_lt_256 buf (i + 1) h
  unfold le16
  omega

theorem overwritePrefix_idem (old src : List Nat) :
    overwritePrefix (overwritePrefix old src) src = overwritePrefix old src := by
  unfold overwritePrefix
  rw [List.drop_left]

/-! ## C1: poll read length and buffer capacity -/

/-- C1 (counterexample): the claim that the rounded-up read request never
exceeds the remaining capacity of the 256-byte packet buffer is false: at
`available = 1` and fill level `end = 253` the single read targets
`buf[253:257]`, past the end of the buffer. -/
theorem pollRead_can_exceed_capacity :
    pollReadCount 1 = 1 ∧ (253 : Nat) ≤ bufCapacity ∧
    readSliceEnd 253 1 = 257 ∧ ¬ readSliceEnd 253 1 ≤ bufCapacity := by
  decide

/-- C1 (amended): in every poll iteration with `available > 0` buffered
bytes the engine performs exactly one transport read, whose requested
length is `available` rounded up to the next multiple of 4; the read slice
`buf[end:end+aligned]` lies within the 256-byte buffer if and only if
`end + aligned ≤ 256` — the code itself never caps the request at the
remaining capacity. -/
theorem pollRead_aligned_spec (available e : Nat) (h : 0 < available) :
    pollReadCount available = 1 ∧
    alignedReadLen available % 4 = 0 ∧
    available ≤ alignedReadLen available ∧
    alignedReadLen available < available + 4 ∧
    (readSliceEnd e available ≤ bufCapacity ↔ e + alignedReadLen available ≤ 256) := by
  refine ⟨by simp [pollReadCount, h], ?_, ?_, ?_, Iff.rfl⟩ <;>
    (unfold alignedReadLen; omega)

/-- Witness for the amended C1 at `available = 5`, `end = 100`. -/
theorem pollRead_aligned_spec_witness :
    0 < 5 ∧
    (pollReadCount 5 = 1 ∧ alignedReadLen 5 % 4 = 0 ∧ 5 ≤ alignedReadLen 5 ∧
     alignedReadLen 5 < 5 + 4 ∧
     (readSliceEnd 100 5 ≤ bufCapacity ↔ 100 + alignedReadLen 5 ≤ 256)) :=
  ⟨by decide, pollRead_aligned_spec 5 100 (by decide)⟩

/-! ## C2: ACL demultiplexer -/

/-- C2: for every reassembled ACL frame (complete frame: buffer holds the
4-byte sub-header plus `totalLen` bytes, all entries bytes), the
demultiplexer fails with the fragmented-packet error exactly when the
16-bit value `totalLen - 4` differs from the declared sub-length; when
`totalLen = len + 4` it routes the payload `buf[8:8+len]` (here the whole
tail `buf.drop 8`) to ATT for cid `0x0004`, to L2CAP for cid `0x0005`,
and otherwise drops the frame with success — always passing the handle
masked to its low 12 bits. -/
theorem aclDemux_spec (buf : List Nat)
    (hbytes : ∀ b ∈ buf, b < 256)
    (hlen : buf.length = 4 + le16 buf 2) :
    ((handleACLData buf).2 = Except.error HCIErr.Fragmented ↔
      (le16 buf 2 + 65532) % 65536 ≠ le16 buf 4) ∧
    (le16 buf 2 = le16 buf 4 + 4 →
      (le16 buf 6 = attCID →
        handleACLData buf =
          ([Effect.attHandleData (le16 buf 0 % 4096) (buf.drop 8)], Except.ok ())) ∧
      (le16 buf 6 = signalingCID →
        handleACLData buf =
          ([Effect.l2capHandleData (le16 buf 0 % 4096) (buf.drop 8)], Except.ok ())) ∧
      (le16 buf 6 ≠ attCID → le16 buf 6 ≠ signalingCID →
        handleACLData buf = ([], Except.ok ()))) := by
  have hlt : le16 buf 4 < 65536 := le16_lt buf 4 hbytes
  constructor
  · simp only [handleACLData]
    split_ifs with h1 h2 h3 <;> simp [h1]
  · intro hd
    have hmod : (le16 buf 2 + 65532) % 65536 = le16 buf 4 := by
      rw [hd]
      omega
    have hpayload : (buf.drop 8).take (le16 buf 4) = buf.drop 8 := by
      apply List.take_of_length_le
      simp only [List.length_drop]
      omega
    refine ⟨fun hc => ?_, fun hc => ?_, fun hc1 hc2 => ?_⟩ <;>
      simp_all [handleACLData, attCID, signalingCID]

/-- Witness for C2 on a concrete reassembled ACL frame: handle `0x1234`,
`totalLen = 6`, `len = 2`, cid ATT, payload `[171, 205]`. -/
theorem aclDemux_spec_witness :
    (∀ b ∈ [52, 18, 6, 0, 2, 0, 4, 0, 171, 205], b < 256) ∧
    ([52, 18, 6, 0, 2, 0, 4, 0, 171, 205] : List Nat).length
      = 4 + le16 [52, 18, 6, 0, 2, 0, 4, 0, 171, 205] 2 ∧
    (((handleACLData [52, 18, 6, 0, 2, 0, 4, 0, 171, 205]).2
        = Except.error HCIErr.Fragmented ↔
      (le16 [52, 18, 6, 0, 2, 0, 4, 0, 171, 205] 2 + 65532) % 65536
        ≠ le16 [52, 18, 6, 0, 2, 0, 4, 0, 171, 205] 4) ∧
    (le16 [52, 18, 6, 0, 2, 0, 4, 0, 171, 205] 2
        = le16 [52, 18, 6, 0, 2, 0, 4, 0, 171, 205] 4 + 4 →
      (le16 [52, 18, 6, 0, 2, 0, 4, 0, 171, 205] 6 = attCID →
        handleACLData [52, 18, 6, 0, 2, 0, 4, 0, 171, 205] =
          ([Effect.attHandleData (le16 [52, 18, 6, 0, 2, 0, 4, 0, 171, 205] 0 % 4096)
              (([52, 18, 6, 0, 2, 0, 4, 0, 171, 205] : List Nat).drop 8)], Except.ok ())) ∧
      (le16 [52, 18, 6, 0, 2, 0, 4, 0, 171, 205] 6 = signalingCID →
        handleACLData [52, 18, 6, 0, 2, 0, 4, 0, 171, 205] =
          ([Effect.l2capHandleData (le16 [52, 18, 6, 0, 2, 0, 4, 0, 171, 205] 0 % 4096)
              (([52, 18, 6, 0, 2, 0, 4, 0, 171, 205] : List Nat).drop 8)], Except.ok ())) ∧
      (le16 [52, 18, 6, 0, 2, 0, 4, 0, 171, 205] 6 ≠ attCID →
       le16 [52, 18, 6, 0, 2, 0, 4, 0, 171, 205] 6 ≠ signalingCID →
        handleACLData [52, 18, 6, 0, 2, 0, 4, 0, 171, 205] = ([], Except.ok ())))) :=
  ⟨by decide, by decide,
   aclDemux_spec [52, 18, 6, 0, 2, 0, 4, 0, 171, 205] (by decide) (by decide)⟩

/-! ## C5: LE Advertising Report decoding -/

theorem handleEventData_advReport (s : HCIState) (buf : List Nat)
    (h0 : buf.getD 0 0 = evtLEMetaEvent)
    (h2 : buf.getD 2 0 = leMetaEventAdvertisingReport) :
    handleEventData s buf = handleAdvReport s buf := by
  simp only [handleEventData, handleLEMetaEvent, h0, h2]
  simp [evtLEMetaEvent, leMetaEventAdvertisingReport, evtDisconnComplete,
        evtEncryptionChange, evtCmdComplete, evtCmdStatus, evtNumCompPkts,
        evtHardwareError, leMetaEventConnComplete,
        leMetaEventEnhancedConnectionComplete]

/-- C5: for every LE Advertising Report meta-event frame, decoding fails
with InvalidPacket exactly when the declared EIR length exceeds 31 or the
EIR bytes plus the trailing RSSI byte would read past the buffered frame;
otherwise it succeeds, copies exactly `eirLength` EIR bytes into the slot,
and sets RSSI to (the `int8` reinterpretation of) the byte immediately
following the EIR bytes exactly when `numReports = 1`, leaving RSSI `0`
otherwise. -/
theorem advReport_spec (s : HCIState) (buf : List Nat)
    (h0 : buf.getD 0 0 = evtLEMetaEvent)
    (h2 : buf.getD 2 0 = leMetaEventAdvertisingReport) :
    ((handleEventData s buf).2.2 = Except.error HCIErr.InvalidPacket ↔
      31 < buf.getD 12 0 ∨ buf.length < 13 + buf.getD 12 0 + 1) ∧
    (¬ (31 < buf.getD 12 0 ∨ buf.length < 13 + buf.getD 12 0 + 1) →
      (handleEventData s buf).2.2 = Except.ok () ∧
      (handleEventData s buf).1.advData.eirLength = buf.getD 12 0 ∧
      (handleEventData s buf).1.advData.numReports = buf.getD 3 0 ∧
      (handleEventData s buf).1.advData.eirData =
        (buf.drop 13).take (buf.getD 12 0)
          ++ s.advData.eirData.drop (buf.getD 12 0) ∧
      (buf.getD 3 0 = 1 →
        (handleEventData s buf).1.advData.rssi
          = int8OfByte (buf.getD (13 + buf.getD 12 0) 0)) ∧
      (buf.getD 3 0 ≠ 1 → (handleEventData s buf).1.advData.rssi = 0)) := by
  rw [handleEventData_advReport s buf h0 h2]
  simp only [handleAdvReport]
  split_ifs with hm hnum
  · have hcond : 31 < buf.getD 12 0 ∨ buf.length < 13 + buf.getD 12 0 + 1 := by
      by_cases h31 : 31 < buf.getD 12 0
      · exact Or.inl h31
      · have h256 : (13 + buf.getD 12 0 + 1) % 256 = 13 + buf.getD 12 0 + 1 :=
          Nat.mod_eq_of_lt (by omega)
        rw [h256] at hm
        omega
    exact ⟨⟨fun _ => hcond, fun _ => rfl⟩, fun hnot => absurd hcond hnot⟩
  · have h31 : ¬ 31 < buf.getD 12 0 := fun h => hm (Or.inr h)
    have h256 : (13 + buf.getD 12 0 + 1) % 256 = 13 + buf.getD 12 0 + 1 :=
      Nat.mod_eq_of_lt (by omega)
    rw [h256] at hm
    have hrhs : ¬ (31 < buf.getD 12 0 ∨ buf.length < 13 + buf.getD 12 0 + 1) := by
      omega
    have htk : ((buf.drop 13).take (buf.getD 12 0)).length = buf.getD 12 0 := by
      simp only [List.length_take, List.length_drop]
      omega
    have h13 : (13 + buf.getD 12 0) % 256 = 13 + buf.getD 12 0 :=
      Nat.mod_eq_of_lt (by omega)
    refine ⟨⟨fun habs => absurd habs (by simp), fun hc => absurd hc hrhs⟩,
      fun _ => ⟨rfl, rfl, rfl, ?_, fun _ => ?_, fun hn => absurd hnum hn⟩⟩
    · show overwritePrefix s.advData.eirData ((buf.drop 13).take (buf.getD 12 0))
        = (buf.drop 13).take (buf.getD 12 0) ++ s.advData.eirData.drop (buf.getD 12 0)
      unfold overwritePrefix
      rw [htk]
    · show int8OfByte (buf.getD ((13 + buf.getD 12 0) % 256) 0)
        = int8OfByte (buf.getD (13 + buf.getD 12 0) 0)
      rw [h13]
  · have h31 : ¬ 31 < buf.getD 12 0 := fun h => hm (Or.inr h)
    have h256 : (13 + buf.getD 12 0 + 1) % 256 = 13 + buf.getD 12 0 + 1 :=
      Nat.mod_eq_of_lt (by omega)
    rw [h256] at hm
    have hrhs : ¬ (31 < buf.getD 12 0 ∨ buf.length < 13 + buf.getD 12 0 + 1) := by
      omega
    have htk : ((buf.drop 13).take (buf.getD 12 0)).length = buf.getD 12 0 := by
      simp only [List.length_take, List.length_drop]
      omega
    refine ⟨⟨fun habs => absurd habs (by simp), fun hc => absurd hc hrhs⟩,
      fun _ => ⟨rfl, rfl, rfl, ?_, fun hn => absurd hn hnum, fun _ => rfl⟩⟩
    show overwritePrefix s.advData.eirData ((buf.drop 13).take (buf.getD 12 0))
      = (buf.drop 13).take (buf.getD 12 0) ++ s.advData.eirData.drop (buf.getD 12 0)
    unfold overwritePrefix
    rw [htk]

/-- Witness for C5: a 45-byte Advertising Report frame with
`numReports = 1`, `eirLength = 31` and RSSI byte `200` decodes
successfully with RSSI `-56`. -/
theorem advReport_spec_witness :
    (([62, 42, 2, 1, 0, 0, 1, 2, 3, 4, 5, 6, 31]
        ++ List.replicate 31 7 ++ [200] : List Nat).getD 0 0 = evtLEMetaEvent) ∧
    (([62, 42, 2, 1, 0, 0, 1, 2, 3, 4, 5, 6, 31]
        ++ List.replicate 31 7 ++ [200] : List Nat).getD 2 0
        = leMetaEventAdvertisingReport) ∧
    (((handleEventData initState
        ([62, 42, 2, 1, 0, 0, 1, 2, 3, 4, 5, 6, 31]
          ++ List.replicate 31 7 ++ [200])).2.2
        = Except.error HCIErr.InvalidPacket ↔
      31 < ([62, 42, 2, 1, 0, 0, 1, 2, 3, 4, 5, 6, 31]
        ++ List.replicate 31 7 ++ [200] : List Nat).getD 12 0 ∨
      ([62, 42, 2, 1, 0, 0, 1, 2, 3, 4, 5, 6, 31]
        ++ List.replicate 31 7 ++ [200] : List Nat).length
        < 13 + ([62, 42, 2, 1, 0, 0, 1, 2, 3, 4, 5, 6, 31]
        ++ List.replicate 31 7 ++ [200] : List Nat).getD 12 0 + 1) ∧
    (¬ (31 < ([62, 42, 2, 1, 0, 0, 1, 2, 3, 4, 5, 6, 31]
        ++ List.replicate 31 7 ++ [200] : List Nat).getD 12 0 ∨
        ([62, 42, 2, 1, 0, 0, 1, 2, 3, 4, 5, 6, 31]
        ++ List.replicate 31 7 ++ [200] : List Nat).length
        < 13 + ([62, 42, 2, 1, 0, 0, 1, 2, 3, 4, 5, 6, 31]
        ++ List.replicate 31 7 ++ [200] : List Nat).getD 12 0 + 1) →
      (handleEventData initState
        ([62, 42, 2, 1, 0, 0, 1, 2, 3, 4, 5, 6, 31]
          ++ List.replicate 31 7 ++ [200])).2.2 = Except.ok () ∧
      (handleEventData initState
        ([62, 42, 2, 1, 0, 0, 1, 2, 3, 4, 5, 6, 31]
          ++ List.replicate 31 7 ++ [200])).1.advData.eirLength
        = ([62, 42, 2, 1, 0, 0, 1, 2, 3, 4, 5, 6, 31]
          ++ List.replicate 31 7 ++ [200] : List Nat).getD 12 0 ∧
      (handleEventData initState
        ([62, 42, 2, 1, 0, 0, 1, 2, 3, 4, 5, 6, 31]
          ++ List.replicate 31 7 ++ [200])).1.advData.numReports
        = ([62, 42, 2, 1, 0, 0, 1, 2, 3, 4, 5, 6, 31]
          ++ List.replicate 31 7 ++ [200] : List Nat).getD 3 0 ∧
      (handleEventData initState
        ([62, 42, 2, 1, 0, 0, 1, 2, 3, 4, 5, 6, 31]
          ++ List.replicate 31 7 ++ [200])).1.advData.eirData =
        (([62, 42, 2, 1, 0, 0, 1, 2, 3, 4, 5, 6, 31]
          ++ List.replicate 31 7 ++ [200] : List Nat).drop 13).take
            (([62, 42, 2, 1, 0, 0, 1, 2, 3, 4, 5, 6, 31]
              ++ List.replicate 31 7 ++ [200] : List Nat).getD 12 0)
          ++ initState.advData.eirData.drop
            (([62, 42, 2, 1, 0, 0, 1, 2, 3, 4, 5, 6, 31]
              ++ List.replicate 31 7 ++ [200] : List Nat).getD 12 0) ∧
      (([62, 42, 2, 1, 0, 0, 1, 2, 3, 4, 5, 6, 31]
          ++ List.replicate 31 7 ++ [200] : List Nat).getD 3 0 = 1 →
        (handleEventData initState
          ([62, 42, 2, 1, 0, 0, 1, 2, 3, 4, 5, 6, 31]
            ++ List.replicate 31 7 ++ [200])).1.advData.rssi
          = int8OfByte (([62, 42, 2, 1, 0, 0, 1, 2, 3, 4, 5, 6, 31]
              ++ List.replicate 31 7 ++ [200] : List Nat).getD
                (13 + ([62, 42, 2, 1, 0, 0, 1, 2, 3, 4, 5, 6, 31]
                  ++ List.replicate 31 7 ++ [200] : List Nat).getD 12 0) 0)) ∧
      (([62, 42, 2, 1, 0, 0, 1, 2, 3, 4, 5, 6, 31]
          ++ List.replicate 31 7 ++ [200] : List Nat).getD 3 0 ≠ 1 →
        (handleEventData initState
          ([62, 42, 2, 1, 0, 0, 1, 2, 3, 4, 5, 6, 31]
            ++ List.replicate 31 7 ++ [200])).1.advData.rssi = 0))) :=
  ⟨by decide, by decide,
   advReport_spec initState
     ([62, 42, 2, 1, 0, 0, 1, 2, 3, 4, 5, 6, 31] ++ List.replicate 31 7 ++ [200])
     (by decide) (by decide)⟩

/-! ## C6: NumberOfCompletedPackets credit accounting -/

theorem handleEventData_numCompPkts (s : HCIState) (buf : List Nat)
    (h0 : buf.getD 0 0 = evtNumCompPkts) :
    handleEventData s buf = handleNumCompPkts s buf := by
  simp only [handleEventData, h0]
  simp [evtNumCompPkts, evtDisconnComplete, evtEncryptionChange,
        evtCmdComplete, evtCmdStatus]

/-- C6 (counterexample): a NumberOfCompletedPackets event whose per-handle
counts sum to zero resets a pending-packet credit of 5 to 0, where
`max(5 - 0, 0) = 5` would leave it unchanged. -/
theorem numCompPkts_zero_sum_clears :
    sumCompleted [19, 5, 1, 0, 0, 0, 0]
      (([19, 5, 1, 0, 0, 0, 0] : List Nat).getD 2 0) = 0 ∧
    (handleEventData { initState with pendingPkt := 5 }
      [19, 5, 1, 0, 0, 0, 0]).1.pendingPkt = 0 ∧
    (handleEventData { initState with pendingPkt := 5 }
      [19, 5, 1, 0, 0, 0, 0]).1.pendingPkt
      ≠ ({ initState with pendingPkt := 5 } : HCIState).pendingPkt := by
  decide

/-- C6 (amended): for every NumberOfCompletedPackets event the decoder
sums the per-handle counts (16-bit wrapping accumulation); when the sum is
positive the new credit is `old - sum` with Nat subtraction (floored at
zero, equal to `old - sum` whenever the sum does not exceed the credit),
and a zero sum resets the credit to zero rather than leaving it unchanged;
the credit never exceeds its old value and is never negative. -/
theorem numCompPkts_credit (s : HCIState) (buf : List Nat)
    (h0 : buf.getD 0 0 = evtNumCompPkts) :
    (0 < sumCompleted buf (buf.getD 2 0) →
      (handleEventData s buf).1.pendingPkt
        = s.pendingPkt - sumCompleted buf (buf.getD 2 0)) ∧
    (sumCompleted buf (buf.getD 2 0) = 0 →
      (handleEventData s buf).1.pendingPkt = 0) ∧
    (handleEventData s buf).1.pendingPkt ≤ s.pendingPkt := by
  have hval : (handleNumCompPkts s buf).1.pendingPkt
      = if 0 < sumCompleted buf (buf.getD 2 0)
           ∧ sumCompleted buf (buf.getD 2 0) < s.pendingPkt
        then s.pendingPkt - sumCompleted buf (buf.getD 2 0) else 0 := rfl
  rw [handleEventData_numCompPkts s buf h0, hval]
  refine ⟨fun hp => ?_, fun hp => ?_, ?_⟩ <;> (split_ifs <;> omega)

/-- Witness for the amended C6: two handle entries with counts 3 and 2
against a credit of 7 leave a credit of 2. -/
theorem numCompPkts_credit_witness :
    (([19, 9, 2, 0, 0, 3, 0, 0, 0, 2, 0] : List Nat).getD 0 0 = evtNumCompPkts) ∧
    ((0 < sumCompleted [19, 9, 2, 0, 0, 3, 0, 0, 0, 2, 0]
        (([19, 9, 2, 0, 0, 3, 0, 0, 0, 2, 0] : List Nat).getD 2 0) →
      (handleEventData { initState with pendingPkt := 7 }
        [19, 9, 2, 0, 0, 3, 0, 0, 0, 2, 0]).1.pendingPkt
        = ({ initState with pendingPkt := 7 } : HCIState).pendingPkt
          - sumCompleted [19, 9, 2, 0, 0, 3, 0, 0, 0, 2, 0]
              (([19, 9, 2, 0, 0, 3, 0, 0, 0, 2, 0] : List Nat).getD 2 0)) ∧
    (sumCompleted [19, 9, 2, 0, 0, 3, 0, 0, 0, 2, 0]
        (([19, 9, 2, 0, 0, 3, 0, 0, 0, 2, 0] : List Nat).getD 2 0) = 0 →
      (handleEventData { initState with pendingPkt := 7 }
        [19, 9, 2, 0, 0, 3, 0, 0, 0, 2, 0]).1.pendingPkt = 0) ∧
    (handleEventData { initState with pendingPkt := 7 }
        [19, 9, 2, 0, 0, 3, 0, 0, 0, 2, 0]).1.pendingPkt
      ≤ ({ initState with pendingPkt := 7 } : HCIState).pendingPkt) :=
  ⟨by decide,
   numCompPkts_credit { initState with pendingPkt := 7 }
     [19, 9, 2, 0, 0, 3, 0, 0, 0, 2, 0] (by decide)⟩

/-! ## C7: the Reset command example -/

/-- The example frame `04 0E 04 01 03 0C 00`. -/
def c7Frame : List Nat := [4, 14, 4, 1, 3, 12, 0]

/-- C7 (counterexample): the example run completes successfully, but the
response payload exposed to the caller (`cmdResponse`) is the five bytes
`04 01 03 0C 00` — `buf[1:plen+2]` — not the empty payload the claim
states. -/
theorem resetResponse_not_empty :
    ((sendCommandWithParams 3075 [] initState [(c7Frame, 0)]).1).succeeded = true ∧
    ((sendCommandWithParams 3075 [] initState [(c7Frame, 0)]).1).stateOf.cmdResponse
      = [4, 1, 3, 12, 0] ∧
    ((sendCommandWithParams 3075 [] initState [(c7Frame, 0)]).1).stateOf.cmdResponse
      ≠ [] := by
  decide

/-- C7 (amended): after sending Reset (opcode `0x0C03`, empty parameters,
wire frame `01 03 0C 00`), feeding the single event frame
`04 0E 04 01 03 0C 00` completes the pending call successfully in one
poll: the completion slot records opcode `0x0C03` with status 0, and the
response payload exposed to the caller is the five bytes `04 01 03 0C 00`
(the event bytes from the length byte through the status byte), not
empty. -/
theorem resetExample_spec :
    commandFrame 3075 [] = [1, 3, 12, 0] ∧
    (sendCommandWithParams 3075 [] initState [(c7Frame, 0)]).2 = 1 ∧
    ((sendCommandWithParams 3075 [] initState [(c7Frame, 0)]).1).succeeded = true ∧
    ((sendCommandWithParams 3075 [] initState [(c7Frame, 0)]).1).stateOf.cmdCompleteOpcode
      = 3075 ∧
    ((sendCommandWithParams 3075 [] initState [(c7Frame, 0)]).1).stateOf.cmdCompleteStatus
      = 0 ∧
    ((sendCommandWithParams 3075 [] initState [(c7Frame, 0)]).1).stateOf.cmdResponse
      = [4, 1, 3, 12, 0] := by
  decide

/-! ## C8: which inputs raise UnknownEvent -/

/-- C8 (counterexample): an event frame whose top-level event code is
unrecognized (here `0x15`, ReturnLinkKeys, which has no decode case)
returns success, not UnknownEvent. -/
theorem unrecognizedEventCode_silent :
    (handleEventData initState [21, 0]).2.2 = Except.ok () ∧
    (handleEventData initState [21, 0]).2.2 ≠ Except.error HCIErr.UnknownEvent := by
  decide

/-- C8 (amended): the decoder fails with UnknownEvent exactly for a
HardwareError event and for an LE meta-event whose sub-event code is
unrecognized (not one of `0x01..0x03`, `0x05..0x0A` as handled), clearing
the advertising-report slot in the latter case; an event frame whose
top-level event code is unrecognized decodes silently with success. -/
theorem unknownEvent_exact (s : HCIState) (buf : List Nat) :
    ((handleEventData s buf).2.2 = Except.error HCIErr.UnknownEvent ↔
      (buf.getD 0 0 = evtHardwareError ∨
       (buf.getD 0 0 = evtLEMetaEvent ∧
        buf.getD 2 0 ∉ ([1, 2, 3, 5, 6, 7, 8, 9, 10] : List Nat)))) ∧
    ((buf.getD 0 0 = evtLEMetaEvent ∧
        buf.getD 2 0 ∉ ([1, 2, 3, 5, 6, 7, 8, 9, 10] : List Nat)) →
      (handleEventData s buf).1.advData = clearedAdvData) := by
  have hadv : (handleAdvReport s buf).2.2 ≠ Except.error HCIErr.UnknownEvent := by
    simp only [handleAdvReport]
    split_ifs <;> simp
  have hdis : (handleDisconnComplete s buf).2.2 = Except.ok () := rfl
  have hcc : (handleCmdComplete s buf).2.2 = Except.ok () := rfl
  have hcs : (handleCmdStatus s buf).2.2 = Except.ok () := rfl
  have hnc : (handleNumCompPkts s buf).2.2 = Except.ok () := rfl
  have hconn : (handleConnComplete s buf).2.2 = Except.ok () := rfl
  have hpar : (handleRemoteConnParamReq s buf).2.2 = Except.ok () := rfl
  constructor
  · simp only [handleEventData, handleLEMetaEvent, evtDisconnComplete,
      evtEncryptionChange, evtCmdComplete, evtCmdStatus, evtNumCompPkts,
      evtLEMetaEvent, evtHardwareError, leMetaEventConnComplete,
      leMetaEventEnhancedConnectionComplete, leMetaEventAdvertisingReport,
      leMetaEventLongTermKeyRequest, leMetaEventRemoteConnParamReq,
      leMetaEventConnectionUpdateComplete, leMetaEventReadLocalP256Complete,
      leMetaEventGenerateDHKeyComplete, leMetaEventDataLengthChange]
    set e0 := buf.getD 0 0 with he0
    set e2 := buf.getD 2 0 with he2
    by_cases h1 : e0 = 5
    · simp [h1, hdis]
    · by_cases h2 : e0 = 8
      · simp [h2]
      · by_cases h3 : e0 = 14
        · simp [h3, hcc]
        · by_cases h4 : e0 = 15
          · simp [h4, hcs]
          · by_cases h5 : e0 = 19
            · simp [h5, hnc]
            · by_cases h6 : e0 = 62
              · by_cases m1 : e2 = 1
                · simp [h6, m1, hconn]
                · by_cases m10 : e2 = 10
                  · simp [h6, m1, m10, hconn]
                  · by_cases m2 : e2 = 2
                    · simp [h6, m1, m10, m2, hadv]
                    · by_cases m5 : e2 = 5
                      · simp [h6, m1, m10, m2, m5]
                      · by_cases m6 : e2 = 6
                        · simp [h6, m1, m10, m2, m5, m6, hpar]
                        · by_cases m3 : e2 = 3
                          · simp [h6, m1, m10, m2, m5, m6, m3]
                          · by_cases m8 : e2 = 8
                            · simp [h6, m1, m10, m2, m5, m6, m3, m8]
                            · by_cases m9 : e2 = 9
                              · simp [h6, m1, m10, m2, m5, m6, m3, m8, m9]
                              · by_cases m7 : e2 = 7
                                · simp [h6, m1, m10, m2, m5, m6, m3, m8, m9, m7]
                                · simp [h6, m1, m10, m2, m5, m6, m3, m8, m9, m7]
              · by_cases h16 : e0 = 16
                · simp [h1, h2, h3, h4, h5, h6, h16]
                · simp [h1, h2, h3, h4, h5, h6, h16]
  · rintro ⟨hevt, hsub⟩
    have hevt' : buf.getD 0 0 = 62 := hevt
    have hne : ∀ k : Nat, k ≠ 62 → ¬ (buf.getD 0 0 = k) := by
      intro k hk h
      rw [hevt'] at h
      exact hk h.symm
    have n1 : ¬ (buf.getD 2 0 = 1) := fun h => hsub (by rw [h]; decide)
    have n2 : ¬ (buf.getD 2 0 = 2) := fun h => hsub (by rw [h]; decide)
    have n3 : ¬ (buf.getD 2 0 = 3) := fun h => hsub (by rw [h]; decide)
    have n5 : ¬ (buf.getD 2 0 = 5) := fun h => hsub (by rw [h]; decide)
    have n6 : ¬ (buf.getD 2 0 = 6) := fun h => hsub (by rw [h]; decide)
    have n7 : ¬ (buf.getD 2 0 = 7) := fun h => hsub (by rw [h]; decide)
    have n8 : ¬ (buf.getD 2 0 = 8) := fun h => hsub (by rw [h]; decide)
    have n9 : ¬ (buf.getD 2 0 = 9) := fun h => hsub (by rw [h]; decide)
    have n10 : ¬ (buf.getD 2 0 = 10) := fun h => hsub (by rw [h]; decide)
    simp only [handleEventData, handleLEMetaEvent, evtDisconnComplete,
      evtEncryptionChange, evtCmdComplete, evtCmdStatus, evtNumCompPkts,
      evtLEMetaEvent, evtHardwareError, leMetaEventConnComplete,
      leMetaEventEnhancedConnectionComplete, leMetaEventAdvertisingReport,
      leMetaEventLongTermKeyRequest, leMetaEventRemoteConnParamReq,
      leMetaEventConnectionUpdateComplete, leMetaEventReadLocalP256Complete,
      leMetaEventGenerateDHKeyComplete, leMetaEventDataLengthChange]
    rw [if_neg (hne 5 (by decide)), if_neg (hne 8 (by decide)),
        if_neg (hne 14 (by decide)), if_neg (hne 15 (by decide)),
        if_neg (hne 19 (by decide)), if_pos hevt',
        if_neg (fun hor => hor.elim n1 n10), if_neg n2, if_neg n5, if_neg n6,
        if_neg n3, if_neg n8, if_neg n9, if_neg n7]

/-- Witness for the amended C8: the unhandled LE sub-event `0x04`
(ReadRemoteUsedFeaturesComplete, not decoded) raises UnknownEvent and
clears the advertising-report slot. -/
theorem unknownEvent_exact_witness :
    (handleEventData initState [62, 1, 4]).2.2 = Except.error HCIErr.UnknownEvent ∧
    (handleEventData initState [62, 1, 4]).1.advData = clearedAdvData :=
  ⟨((unknownEvent_exact initState [62, 1, 4]).1).mpr (by decide),
   (unknownEvent_exact initState [62, 1, 4]).2 (by decide)⟩

/-! ## C9: decoding the same frame twice -/

theorem disconn_idem (s : HCIState) (buf : List Nat) :
    (handleDisconnComplete (handleDisconnComplete s buf).1 buf).1
      = (handleDisconnComplete s buf).1 := rfl

theorem cmdComplete_idem (s : HCIState) (buf : List Nat) :
    (handleCmdComplete (handleCmdComplete s buf).1 buf).1
      = (handleCmdComplete s buf).1 := rfl

theorem cmdStatus_idem (s : HCIState) (buf : List Nat) :
    (handleCmdStatus (handleCmdStatus s buf).1 buf).1
      = (handleCmdStatus s buf).1 := rfl

theorem paramReq_idem (s : HCIState) (buf : List Nat) :
    (handleRemoteConnParamReq (handleRemoteConnParamReq s buf).1 buf).1
      = (handleRemoteConnParamReq s buf).1 := rfl

theorem connComplete_idem (s : HCIState) (buf : List Nat) :
    (handleConnComplete (handleConnComplete s buf).1 buf).1
      = (handleConnComplete s buf).1 := by
  simp only [handleConnComplete, leSetAdvertiseEnableFx, sendWithoutResponseFx]
  rw [overwritePrefix_idem]

theorem advReport_idem (s : HCIState) (buf : List Nat) :
    (handleAdvReport (handleAdvReport s buf).1 buf).1 = (handleAdvReport s buf).1 := by
  simp only [handleAdvReport]
  split_ifs <;> simp [overwritePrefix_idem]

theorem handleEventData_numCompPkts2 (s : HCIState) (buf : List Nat)
    (h0 : buf.getD 0 0 = evtNumCompPkts) :
    handleEventData (handleNumCompPkts s buf).1 buf
      = handleNumCompPkts (handleNumCompPkts s buf).1 buf :=
  handleEventData_numCompPkts (handleNumCompPkts s buf).1 buf h0

/-- C9 (counterexample): feeding the same NumberOfCompletedPackets frame
(sum 3) twice from credit 10 yields credit 7 after the first run and 4
after the second: the decoded state differs between the two runs. -/
theorem numCompPkts_not_idempotent :
    (handleEventData { initState with pendingPkt := 10 }
      [19, 5, 1, 0, 0, 3, 0]).1.pendingPkt = 7 ∧
    (handleEventData (handleEventData { initState with pendingPkt := 10 }
      [19, 5, 1, 0, 0, 3, 0]).1 [19, 5, 1, 0, 0, 3, 0]).1.pendingPkt = 4 ∧
    decodedState (handleEventData (handleEventData { initState with pendingPkt := 10 }
        [19, 5, 1, 0, 0, 3, 0]).1 [19, 5, 1, 0, 0, 3, 0]).1
      ≠ decodedState (handleEventData { initState with pendingPkt := 10 }
        [19, 5, 1, 0, 0, 3, 0]).1 := by
  decide

/-- C9 (amended): decoding a byte-identical event frame twice in
succession yields identical advertising-report slot, connection slot and
completion slot (opcode, status, response) after the first and after the
second run; the pending-packet credit also agrees for every frame other
than NumberOfCompletedPackets, which debits the credit again on the
second feeding. -/
theorem eventDecode_idempotent (s : HCIState) (buf : List Nat) :
    (handleEventData (handleEventData s buf).1 buf).1.advData
      = (handleEventData s buf).1.advData ∧
    (handleEventData (handleEventData s buf).1 buf).1.connectData
      = (handleEventData s buf).1.connectData ∧
    (handleEventData (handleEventData s buf).1 buf).1.cmdCompleteOpcode
      = (handleEventData s buf).1.cmdCompleteOpcode ∧
    (handleEventData (handleEventData s buf).1 buf).1.cmdCompleteStatus
      = (handleEventData s buf).1.cmdCompleteStatus ∧
    (handleEventData (handleEventData s buf).1 buf).1.cmdResponse
      = (handleEventData s buf).1.cmdResponse ∧
    (buf.getD 0 0 ≠ evtNumCompPkts →
      (handleEventData (handleEventData s buf).1 buf).1.pendingPkt
        = (handleEventData s buf).1.pendingPkt) := by
  by_cases h19 : buf.getD 0 0 = 19
  · rw [handleEventData_numCompPkts s buf h19, handleEventData_numCompPkts2 s buf h19]
    exact ⟨rfl, rfl, rfl, rfl, rfl, fun hne => absurd h19 hne⟩
  · have hfull : (handleEventData (handleEventData s buf).1 buf).1
        = (handleEventData s buf).1 := by
      simp only [handleEventData, handleLEMetaEvent, evtDisconnComplete,
        evtEncryptionChange, evtCmdComplete, evtCmdStatus, evtNumCompPkts,
        evtLEMetaEvent, evtHardwareError, leMetaEventConnComplete,
        leMetaEventEnhancedConnectionComplete, leMetaEventAdvertisingReport,
        leMetaEventLongTermKeyRequest, leMetaEventRemoteConnParamReq,
        leMetaEventConnectionUpdateComplete, leMetaEventReadLocalP256Complete,
        leMetaEventGenerateDHKeyComplete, leMetaEventDataLengthChange]
      set e0 := buf.getD 0 0 with he0
      set e2 := buf.getD 2 0 with he2
      by_cases h5 : e0 = 5
      · simp [h5, disconn_idem]
      · by_cases h8 : e0 = 8
        · simp [h5, h8]
        · by_cases h14 : e0 = 14
          · simp [h14, cmdComplete_idem]
          · by_cases h15 : e0 = 15
            · simp [h15, cmdStatus_idem]
            · by_cases h19' : e0 = 19
              · rw [he0] at h19'
                exact absurd h19' h19
              · by_cases h62 : e0 = 62
                · by_cases m1 : e2 = 1
                  · simp [h62, m1, connComplete_idem]
                  · by_cases m10 : e2 = 10
                    · simp [h62, m1, m10, connComplete_idem]
                    · by_cases m2 : e2 = 2
                      · simp [h62, m1, m10, m2, advReport_idem]
                      · by_cases m5 : e2 = 5
                        · simp [h62, m1, m10, m2, m5]
                        · by_cases m6 : e2 = 6
                          · simp [h62, m1, m10, m2, m5, m6, paramReq_idem]
                          · by_cases m3 : e2 = 3
                            · simp [h62, m1, m10, m2, m5, m6, m3]
                            · by_cases m8 : e2 = 8
                              · simp [h62, m1, m10, m2, m5, m6, m3, m8]
                              · by_cases m9 : e2 = 9
                                · simp [h62, m1, m10, m2, m5, m6, m3, m8, m9]
                                · by_cases m7 : e2 = 7
                                  · simp [h62, m1, m10, m2, m5, m6, m3, m8, m9, m7]
                                  · simp [h62, m1, m10, m2, m5, m6, m3, m8, m9, m7]
                · by_cases h16 : e0 = 16
                  · simp [h5, h8, h14, h15, h19', h62, h16]
                  · simp [h5, h8, h14, h15, h19', h62, h16]
    rw [hfull]
    exact ⟨rfl, rfl, rfl, rfl, rfl, fun _ => rfl⟩

/-- Witness for the amended C9 on a concrete DisconnectionComplete
frame. -/
theorem eventDecode_idempotent_witness :
    (handleEventData (handleEventData initState [5, 4, 0, 7, 0]).1
        [5, 4, 0, 7, 0]).1.advData
      = (handleEventData initState [5, 4, 0, 7, 0]).1.advData ∧
    (handleEventData (handleEventData initState [5, 4, 0, 7, 0]).1
        [5, 4, 0, 7, 0]).1.connectData
      = (handleEventData initState [5, 4, 0, 7, 0]).1.connectData ∧
    (handleEventData (handleEventData initState [5, 4, 0, 7, 0]).1
        [5, 4, 0, 7, 0]).1.cmdCompleteOpcode
      = (handleEventData initState [5, 4, 0, 7, 0]).1.cmdCompleteOpcode ∧
    (handleEventData (handleEventData initState [5, 4, 0, 7, 0]).1
        [5, 4, 0, 7, 0]).1.cmdCompleteStatus
      = (handleEventData initState [5, 4, 0, 7, 0]).1.cmdCompleteStatus ∧
    (handleEventData (handleEventData initState [5, 4, 0, 7, 0]).1
        [5, 4, 0, 7, 0]).1.cmdResponse
      = (handleEventData initState [5, 4, 0, 7, 0]).1.cmdResponse ∧
    (([5, 4, 0, 7, 0] : List Nat).getD 0 0 ≠ evtNumCompPkts →
      (handleEventData (handleEventData initState [5, 4, 0, 7, 0]).1
          [5, 4, 0, 7, 0]).1.pendingPkt
        = (handleEventData initState [5, 4, 0, 7, 0]).1.pendingPkt) :=
  eventDecode_idempotent initState [5, 4, 0, 7, 0]

/-! ## C10: the sentinel opcode 0xFFFF -/

/-- C10: calling the blocking send with opcode `0xFFFF` — the
no-command-pending sentinel — returns success immediately after the frame
write, performing zero polls: resetting the completion slot to the
sentinel makes the wait-loop guard false at once, for every starting
state and every available poll trace. -/
theorem sentinel_opcode_returns_immediately (s : HCIState) (params : List Nat)
    (trace : List (List Nat × Nat)) :
    sendCommandWithParams 65535 params s trace
      = (WaitOutcome.ok
          { s with cmdCompleteOpcode := 65535, cmdCompleteStatus := 255 }, 0) := by
  cases trace <;> simp [sendCommandWithParams, waitLoop]

/-! ## C3/C4 infrastructure: wait-loop step lemmas and the completion-slot
characterization -/

theorem getD_drop_one (frame : List Nat) (i : Nat) :
    (frame.drop 1).getD i 0 = frame.getD (i + 1) 0 := by
  cases frame <;> rfl

theorem waitLoop_nil (opcode : Nat) (s : HCIState) :
    waitLoop opcode s []
      = (if s.cmdCompleteOpcode = opcode then WaitOutcome.ok s
         else WaitOutcome.pending s, 0) := rfl

theorem waitLoop_cons_done (opcode : Nat) (s : HCIState) (frame : List Nat)
    (t : Nat) (rest : List (List Nat × Nat))
    (h : s.cmdCompleteOpcode = opcode) :
    waitLoop opcode s ((frame, t) :: rest) = (WaitOutcome.ok s, 0) := by
  simp only [waitLoop]
  rw [if_pos h]

theorem waitLoop_cons_err (opcode : Nat) (s : HCIState) (frame : List Nat)
    (t : Nat) (rest : List (List Nat × Nat)) (e : HCIErr)
    (hpre : s.cmdCompleteOpcode ≠ opcode)
    (hpoll : (pollOnce s frame).2 = Except.error e) :
    waitLoop opcode s ((frame, t) :: rest)
      = (WaitOutcome.err e (pollOnce s frame).1, 1) := by
  simp only [waitLoop]
  rw [if_neg hpre, hpoll]

theorem waitLoop_cons_ok (opcode : Nat) (s : HCIState) (frame : List Nat)
    (t : Nat) (rest : List (List Nat × Nat))
    (hpre : s.cmdCompleteOpcode ≠ opcode)
    (hpoll : (pollOnce s frame).2 = Except.ok ()) :
    waitLoop opcode s ((frame, t) :: rest)
      = if 3 < t / 1000000000
        then (WaitOutcome.err HCIErr.Timeout (pollOnce s frame).1, 1)
        else ((waitLoop opcode (pollOnce s frame).1 rest).1,
              (waitLoop opcode (pollOnce s frame).1 rest).2 + 1) := by
  simp only [waitLoop]
  rw [if_neg hpre, hpoll]

theorem handleEventData_cmdComplete (s : HCIState) (buf : List Nat)
    (h0 : buf.getD 0 0 = evtCmdComplete) :
    handleEventData s buf = handleCmdComplete s buf := by
  simp only [handleEventData, h0]
  simp [evtCmdComplete, evtDisconnComplete, evtEncryptionChange]

theorem handleEventData_cmdStatus (s : HCIState) (buf : List Nat)
    (h0 : buf.getD 0 0 = evtCmdStatus) :
    handleEventData s buf = handleCmdStatus s buf := by
  simp only [handleEventData, h0]
  simp [evtCmdStatus, evtDisconnComplete, evtEncryptionChange, evtCmdComplete]

theorem advReport_slot (s : HCIState) (buf : List Nat) :
    (handleAdvReport s buf).1.cmdCompleteOpcode = s.cmdCompleteOpcode := by
  simp only [handleAdvReport]
  split_ifs <;> rfl

/-- For every event other than CommandComplete/CommandStatus, the decoder
either leaves the completion-slot opcode unchanged or resets it to the
sentinel `0xffff` (via a fire-and-forget outbound command). -/
theorem handleEventData_slot_cases (s : HCIState) (buf : List Nat)
    (h14 : ¬ buf.getD 0 0 = 14) (h15 : ¬ buf.getD 0 0 = 15) :
    (handleEventData s buf).1.cmdCompleteOpcode = s.cmdCompleteOpcode ∨
    (handleEventData s buf).1.cmdCompleteOpcode = 65535 := by
  simp only [handleEventData, handleLEMetaEvent, evtDisconnComplete,
    evtEncryptionChange, evtCmdComplete, evtCmdStatus, evtNumCompPkts,
    evtLEMetaEvent, evtHardwareError, leMetaEventConnComplete,
    leMetaEventEnhancedConnectionComplete, leMetaEventAdvertisingReport,
    leMetaEventLongTermKeyRequest, leMetaEventRemoteConnParamReq,
    leMetaEventConnectionUpdateComplete, leMetaEventReadLocalP256Complete,
    leMetaEventGenerateDHKeyComplete, leMetaEventDataLengthChange]
  set e0 := buf.getD 0 0 with he0
  set e2 := buf.getD 2 0 with he2
  by_cases h5 : e0 = 5
  · simp [h5, handleDisconnComplete, leSetAdvertiseEnableFx, sendWithoutResponseFx]
  · by_cases h8 : e0 = 8
    · simp [h8]
    · have h14' : ¬ e0 = 14 := h14
      have h15' : ¬ e0 = 15 := h15
      by_cases h19 : e0 = 19
      · simp [h19, handleNumCompPkts]
      · by_cases h62 : e0 = 62
        · by_cases m1 : e2 = 1
          · simp [h62, m1, handleConnComplete, leSetAdvertiseEnableFx,
              sendWithoutResponseFx]
          · by_cases m10 : e2 = 10
            · simp [h62, m1, m10, handleConnComplete, leSetAdvertiseEnableFx,
                sendWithoutResponseFx]
            · by_cases m2 : e2 = 2
              · simp [h62, m1, m10, m2, advReport_slot]
              · by_cases m5 : e2 = 5
                · simp [h62, m1, m10, m2, m5]
                · by_cases m6 : e2 = 6
                  · simp [h62, m1, m10, m2, m5, m6, handleRemoteConnParamReq,
                      sendWithoutResponseFx]
                  · by_cases m3 : e2 = 3
                    · simp [h62, m1, m10, m2, m5, m6, m3]
                    · by_cases m8 : e2 = 8
                      · simp [h62, m1, m10, m2, m5, m6, m3, m8]
                      · by_cases m9 : e2 = 9
                        · simp [h62, m1, m10, m2, m5, m6, m3, m8, m9]
                        · by_cases m7 : e2 = 7
                          · simp [h62, m1, m10, m2, m5, m6, m3, m8, m9, m7]
                          · simp [h62, m1, m10, m2, m5, m6, m3, m8, m9, m7]
        · by_cases h16 : e0 = 16
          · simp [h5, h8, h14', h15', h19, h62, h16]
          · simp [h5, h8, h14', h15', h19, h62, h16]

/-- If decoding one event moves the completion-slot opcode to a value `X`
that is neither the old value nor the sentinel, the event was a
CommandComplete or CommandStatus carrying `X`. -/
theorem handleEventData_slot (s : HCIState) (buf : List Nat) (X : Nat)
    (hX : X ≠ 65535) (hpre : s.cmdCompleteOpcode ≠ X)
    (hpost : (handleEventData s buf).1.cmdCompleteOpcode = X) :
    (buf.getD 0 0 = evtCmdComplete ∧ le16 buf 3 = X) ∨
    (buf.getD 0 0 = evtCmdStatus ∧ le16 buf 4 = X) := by
  by_cases h14 : buf.getD 0 0 = 14
  · rw [handleEventData_cmdComplete s buf h14] at hpost
    exact Or.inl ⟨h14, hpost⟩
  · by_cases h15 : buf.getD 0 0 = 15
    · rw [handleEventData_cmdStatus s buf h15] at hpost
      exact Or.inr ⟨h15, hpost⟩
    · exfalso
      rcases handleEventData_slot_cases s buf h14 h15 with hc | hc
      · rw [hpost] at hc
        exact hpre hc.symm
      · rw [hpost] at hc
        exact hX hc

/-- Slot-change characterization lifted to the frame level: a poll that
records opcode `X` (not the sentinel, not the previous value) consumed a
matching completion frame. -/
theorem pollOnce_slot_matching (s : HCIState) (frame : List Nat) (X : Nat)
    (hX : X ≠ 65535) (hpre : s.cmdCompleteOpcode ≠ X)
    (hpost : (pollOnce s frame).1.cmdCompleteOpcode = X) :
    isMatchingCompletion X frame := by
  have hpost' : (processFrame s frame).1.cmdCompleteOpcode = X := hpost
  by_cases t2 : frame.getD 0 0 = 2
  · have hid : (processFrame s frame).1 = s := by
      simp only [processFrame, hciACLDataPkt, hciEventPkt, hciSynchronousDataPkt]
      rw [if_pos t2]
    rw [hid] at hpost'
    exact absurd hpost' hpre
  · by_cases t4 : frame.getD 0 0 = 4
    · have hd : processFrame s frame = handleEventData s (frame.drop 1) := by
        simp only [processFrame, hciACLDataPkt, hciEventPkt, hciSynchronousDataPkt]
        rw [if_neg t2, if_pos t4]
      rw [hd] at hpost'
      rcases handleEventData_slot s (frame.drop 1) X hX hpre hpost' with
        ⟨he, hv⟩ | ⟨he, hv⟩
      · refine ⟨t4, Or.inl ⟨?_, hv⟩⟩
        rw [← getD_drop_one]
        exact he
      · refine ⟨t4, Or.inr ⟨?_, hv⟩⟩
        rw [← getD_drop_one]
        exact he
    · have hid : (processFrame s frame).1 = s := by
        simp only [processFrame, hciACLDataPkt, hciEventPkt, hciSynchronousDataPkt]
        rw [if_neg t2, if_neg t4]
        split_ifs <;> rfl
      rw [hid] at hpost'
      exact absurd hpost' hpre

/-! ## C3: unblocking requires a matching completion -/

theorem waitLoop_ok_requires_matching (X : Nat) (hX : X ≠ 65535)
    (trace : List (List Nat × Nat)) :
    ∀ s : HCIState, s.cmdCompleteOpcode ≠ X →
      ∀ s', (waitLoop X s trace).1 = WaitOutcome.ok s' →
        ∃ p ∈ trace, isMatchingCompletion X p.1 := by
  induction trace with
  | nil =>
    intro s hpre s' h
    simp only [waitLoop_nil] at h
    rw [if_neg hpre] at h
    exact WaitOutcome.noConfusion h
  | cons p rest ih =>
    obtain ⟨frame, t⟩ := p
    intro s hpre s' h
    cases hres : (pollOnce s frame).2 with
    | error e =>
      rw [waitLoop_cons_err X s frame t rest e hpre hres] at h
      exact WaitOutcome.noConfusion h
    | ok u =>
      cases u
      rw [waitLoop_cons_ok X s frame t rest hpre hres] at h
      by_cases ht : 3 < t / 1000000000
      · rw [if_pos ht] at h
        exact WaitOutcome.noConfusion h
      · rw [if_neg ht] at h
        by_cases hm : (pollOnce s frame).1.cmdCompleteOpcode = X
        · exact ⟨(frame, t), List.mem_cons_self _ _,
            pollOnce_slot_matching s frame X hX hpre hm⟩
        · obtain ⟨q, hq, hmq⟩ := ih (pollOnce s frame).1 hm s' h
          exact ⟨q, List.mem_cons_of_mem _ hq, hmq⟩

/-- C3 (counterexample): for opcode `0xFFFF` the blocking send returns
success immediately, with zero polls performed — no CommandComplete or
CommandStatus event ever recorded the opcode, so the
wait-for-matching-completion contract fails for this opcode value. -/
theorem sentinel_send_no_event :
    ((sendCommandWithParams 65535 [] initState []).1).succeeded = true ∧
    (sendCommandWithParams 65535 [] initState []).2 = 0 := by
  decide

/-- C3 (amended): for every blocking command with opcode `X ≠ 0xFFFF`
(the no-command-pending sentinel), the wait loop returns success only
once a CommandComplete or CommandStatus event has recorded opcode exactly
`X` in the completion slot: whenever the call succeeds, some consumed
frame was such an event — completions carrying any other opcode leave
the call waiting, the match being by opcode equality only. -/
theorem command_unblocks_only_on_matching (X : Nat) (params : List Nat)
    (s : HCIState) (trace : List (List Nat × Nat)) (s' : HCIState)
    (hX : X ≠ 65535)
    (h : (sendCommandWithParams X params s trace).1 = WaitOutcome.ok s') :
    ∃ p ∈ trace, isMatchingCompletion X p.1 :=
  waitLoop_ok_requires_matching X hX trace
    { s with cmdCompleteOpcode := 0xffff, cmdCompleteStatus := 0xff }
    (fun hc => hX hc.symm) s' h

/-- The engine state after the Reset command of the witness run has been
completed by its CommandComplete frame. -/
def resetDoneState : HCIState :=
  { initState with
    cmdCompleteOpcode := 3075
    cmdCompleteStatus := 0
    cmdResponse := [4, 1, 3, 12, 0] }

/-- Witness for the amended C3: a Reset command whose trace holds its own
CommandComplete frame succeeds, and the trace indeed contains a matching
completion. -/
theorem command_unblocks_only_on_matching_witness :
    (3075 : Nat) ≠ 65535 ∧
    (sendCommandWithParams 3075 [] initState
        [(([4, 14, 4, 1, 3, 12, 0] : List Nat), 0)]).1
      = WaitOutcome.ok resetDoneState ∧
    ∃ p ∈ [(([4, 14, 4, 1, 3, 12, 0] : List Nat), 0)],
      isMatchingCompletion 3075 p.1 :=
  ⟨by decide, by decide,
   command_unblocks_only_on_matching 3075 [] initState
     [(([4, 14, 4, 1, 3, 12, 0] : List Nat), 0)] resetDoneState
     (by decide) (by decide)⟩

/-! ## C4: the 3-second timeout -/

theorem advReport_res (s : HCIState) (buf : List Nat) :
    (handleAdvReport s buf).2.2 = Except.ok () ∨
    (handleAdvReport s buf).2.2 = Except.error HCIErr.InvalidPacket := by
  simp only [handleAdvReport]
  split_ifs <;> simp

/-- The decoder only ever returns success, UnknownEvent, or
InvalidPacket — all of which `poll` swallows locally. -/
theorem handleEventData_errors (s : HCIState) (buf : List Nat) :
    (handleEventData s buf).2.2 = Except.ok () ∨
    (handleEventData s buf).2.2 = Except.error HCIErr.UnknownEvent ∨
    (handleEventData s buf).2.2 = Except.error HCIErr.InvalidPacket := by
  have hdis : (handleDisconnComplete s buf).2.2 = Except.ok () := rfl
  have hcc : (handleCmdComplete s buf).2.2 = Except.ok () := rfl
  have hcs : (handleCmdStatus s buf).2.2 = Except.ok () := rfl
  have hnc : (handleNumCompPkts s buf).2.2 = Except.ok () := rfl
  have hconn : (handleConnComplete s buf).2.2 = Except.ok () := rfl
  have hpar : (handleRemoteConnParamReq s buf).2.2 = Except.ok () := rfl
  simp only [handleEventData, handleLEMetaEvent, evtDisconnComplete,
    evtEncryptionChange, evtCmdComplete, evtCmdStatus, evtNumCompPkts,
    evtLEMetaEvent, evtHardwareError, leMetaEventConnComplete,
    leMetaEventEnhancedConnectionComplete, leMetaEventAdvertisingReport,
    leMetaEventLongTermKeyRequest, leMetaEventRemoteConnParamReq,
    leMetaEventConnectionUpdateComplete, leMetaEventReadLocalP256Complete,
    leMetaEventGenerateDHKeyComplete, leMetaEventDataLengthChange]
  set e0 := buf.getD 0 0 with he0
  set e2 := buf.getD 2 0 with he2
  by_cases h5 : e0 = 5
  · simp [h5, hdis]
  · by_cases h8 : e0 = 8
    · simp [h8]
    · by_cases h14 : e0 = 14
      · simp [h14, hcc]
      · by_cases h15 : e0 = 15
        · simp [h15, hcs]
        · by_cases h19 : e0 = 19
          · simp [h19, hnc]
          · by_cases h62 : e0 = 62
            · by_cases m1 : e2 = 1
              · simp [h62, m1, hconn]
              · by_cases m10 : e2 = 10
                · simp [h62, m1, m10, hconn]
                · by_cases m2 : e2 = 2
                  · rcases advReport_res s buf with h | h <;>
                      simp [h62, m1, m10, m2, h]
                  · by_cases m5 : e2 = 5
                    · simp [h62, m1, m10, m2, m5]
                    · by_cases m6 : e2 = 6
                      · simp [h62, m1, m10, m2, m5, m6, hpar]
                      · by_cases m3 : e2 = 3
                        · simp [h62, m1, m10, m2, m5, m6, m3]
                        · by_cases m8 : e2 = 8
                          · simp [h62, m1, m10, m2, m5, m6, m3, m8]
                          · by_cases m9 : e2 = 9
                            · simp [h62, m1, m10, m2, m5, m6, m3, m8, m9]
                            · by_cases m7 : e2 = 7
                              · simp [h62, m1, m10, m2, m5, m6, m3, m8, m9, m7]
                              · simp [h62, m1, m10, m2, m5, m6, m3, m8, m9, m7]
            · by_cases h16 : e0 = 16
              · simp [h5, h8, h14, h15, h19, h62, h16]
              · simp [h5, h8, h14, h15, h19, h62, h16]

/-- A poll that consumes an event frame never propagates an error: the
only decoder errors are the resynchronization kinds poll swallows. -/
theorem pollOnce_event_ok (s : HCIState) (frame : List Nat)
    (h4 : frame.getD 0 0 = 4) : (pollOnce s frame).2 = Except.ok () := by
  have hd : processFrame s frame = handleEventData s (frame.drop 1) := by
    simp only [processFrame, hciACLDataPkt, hciEventPkt, hciSynchronousDataPkt]
    rw [if_neg (by rw [h4]; decide), if_pos h4]
  simp only [pollOnce, hd]
  rcases handleEventData_errors s (frame.drop 1) with h | h | h <;>
    (rw [h]; try rfl)

theorem le16_put (X : Nat) (h : X < 65536) :
    X % 256 + 256 * (X / 256 % 256) = X := by
  omega

/-- After any command call — completed or timed out — the engine is ready:
a fresh call whose first poll delivers its own CommandComplete frame
within the window completes successfully. -/
theorem ready_after (s : HCIState) (X2 : Nat) (ps2 : List Nat) (t2 : Nat)
    (hlt : X2 < 65536) (hne : X2 ≠ 65535) (ht : ¬ 3 < t2 / 1000000000) :
    ((sendCommandWithParams X2 ps2 s [(cmdCompleteFrame X2 0, t2)]).1).succeeded
      = true := by
  have hne' : (65535 : Nat) ≠ X2 := fun hc => hne hc.symm
  simp [sendCommandWithParams, waitLoop, pollOnce, processFrame, handleEventData,
    handleCmdComplete, cmdCompleteFrame, le16, evtDisconnComplete,
    evtEncryptionChange, evtCmdComplete, evtCmdStatus, evtNumCompPkts,
    evtLEMetaEvent, evtHardwareError, hciACLDataPkt, hciEventPkt,
    hciSynchronousDataPkt, hne', ht, le16_put X2 hlt, WaitOutcome.succeeded]

theorem waitLoop_times_out (X : Nat) (hX : X ≠ 65535)
    (trace : List (List Nat × Nat)) :
    ∀ s : HCIState, s.cmdCompleteOpcode ≠ X →
      (∀ p ∈ trace, p.1.getD 0 0 = 4 ∧ ¬ isMatchingCompletion X p.1) →
      (∃ p ∈ trace, 3 < p.2 / 1000000000) →
      ((waitLoop X s trace).1).isTimeout = true := by
  induction trace with
  | nil =>
    intro s hpre hev hlate
    obtain ⟨p, hp, _⟩ := hlate
    simp at hp
  | cons p rest ih =>
    obtain ⟨frame, t⟩ := p
    intro s hpre hev hlate
    have hevh := hev (frame, t) (List.mem_cons_self _ _)
    have hpoll : (pollOnce s frame).2 = Except.ok () :=
      pollOnce_event_ok s frame hevh.1
    have hkeep : (pollOnce s frame).1.cmdCompleteOpcode ≠ X := fun hc =>
      hevh.2 (pollOnce_slot_matching s frame X hX hpre hc)
    rw [waitLoop_cons_ok X s frame t rest hpre hpoll]
    by_cases htime : 3 < t / 1000000000
    · rw [if_pos htime]
      rfl
    · rw [if_neg htime]
      obtain ⟨q, hq, hqt⟩ := hlate
      rcases List.mem_cons.mp hq with hq' | hq'
      · rw [hq'] at hqt
        exact absurd hqt htime
      · exact ih (pollOnce s frame).1 hkeep
          (fun p hp => hev p (List.mem_cons_of_mem _ hp)) ⟨q, hq', hqt⟩

/-- C4 (counterexample): a matching CommandComplete decoded only at
3.5 s — after the claimed 3-second deadline — still completes the call
successfully rather than failing with Timeout: the code's post-poll check
`(elapsed ns)/1e9 > 3` does not fire below 4 s. -/
theorem late_completion_still_succeeds :
    (3 * 1000000000 < 3500000000) ∧
    ¬ 3 < 3500000000 / 1000000000 ∧
    ((sendCommandWithParams 3075 [] initState
        [(([4, 14, 4, 1, 3, 12, 0] : List Nat), 3500000000)]).1).succeeded = true ∧
    ((sendCommandWithParams 3075 [] initState
        [(([4, 14, 4, 1, 3, 12, 0] : List Nat), 3500000000)]).1).isTimeout
      = false := by
  decide

/-- C4 (amended): for a blocking command with opcode `X ≠ 0xFFFF` whose
polls deliver only event frames that are not matching completions, as soon
as a poll iteration's post-poll wall-clock check finds
`elapsed / 1 s > 3` (i.e. strictly more than three whole seconds, which
first happens at 4 s) the call fails with the Timeout error; and the
engine is left ready for the next command: a subsequent call (any opcode
`X2 < 65536`, `X2 ≠ 0xFFFF`) whose completion arrives within the window
succeeds normally from the post-timeout state. -/
theorem command_timeout (X : Nat) (params : List Nat) (s : HCIState)
    (trace : List (List Nat × Nat))
    (hX : X ≠ 65535)
    (hev : ∀ p ∈ trace, p.1.getD 0 0 = 4 ∧ ¬ isMatchingCompletion X p.1)
    (hlate : ∃ p ∈ trace, 3 < p.2 / 1000000000) :
    ((sendCommandWithParams X params s trace).1).isTimeout = true ∧
    ∀ (X2 : Nat) (ps2 : List Nat) (t2 : Nat), X2 < 65536 → X2 ≠ 65535 →
      ¬ 3 < t2 / 1000000000 →
      ((sendCommandWithParams X2 ps2
          ((sendCommandWithParams X params s trace).1).stateOf
          [(cmdCompleteFrame X2 0, t2)]).1).succeeded = true :=
  ⟨waitLoop_times_out X hX trace
     { s with cmdCompleteOpcode := 0xffff, cmdCompleteStatus := 0xff }
     (fun hc => hX hc.symm) hev hlate,
   fun X2 ps2 t2 hlt hne ht => ready_after _ X2 ps2 t2 hlt hne ht⟩

/-- Witness for the amended C4: an unknown-event frame at 4 s times the
Reset command out, after which a fresh command with opcode 3 completes
normally. -/
theorem command_timeout_witness :
    ((sendCommandWithParams 3075 [] initState
        [(([4, 255, 0] : List Nat), 4000000000)]).1).isTimeout = true ∧
    ((sendCommandWithParams 3 [] ((sendCommandWithParams 3075 [] initState
        [(([4, 255, 0] : List Nat), 4000000000)]).1).stateOf
        [(cmdCompleteFrame 3 0, 7)]).1).succeeded = true :=
  ⟨(command_timeout 3075 [] initState [(([4, 255, 0] : List Nat), 4000000000)]
      (by decide) (by decide) (by decide)).1,
   (command_timeout 3075 [] initState [(([4, 255, 0] : List Nat), 4000000000)]
      (by decide) (by decide) (by decide)).2 3 [] 7
      (by decide) (by decide) (by decide)⟩

end Gotooth
